import Mathlib

/-!
Shallow embedding of the WebXR locomotion logic of this repository.

Sources:
* `src/public/main.js` — the revision with `applyAVPAxes`,
  `applyAVPSelectStep`, `updateInputStates` and the `setAnimationLoop`
  body (HUD text output is pure debug display and carries no state, so
  it is omitted from the embedding).
* `src/unnamed/part_000` — two further revisions; the second one holds
  `updateXRMovement`, `isPinching` and the hand-joint gesture variant.

Modelling conventions:
* Numbers are exact rationals (`ℚ`); the JavaScript floats are modelled
  exactly, since every claim is about exact arithmetic on the tunables.
* `v.normalize()` divides by the (generally irrational) length, so each
  normalisation site takes an explicit `invLen : ℚ` parameter standing
  for the reciprocal length `1 / ‖v‖`; three.js `normalize` maps the
  zero vector to itself (`divideScalar(length || 1)`), which the model
  reproduces with an explicit zero test.
* `Math.hypot(x, y) > dz` is modelled by the exactly equivalent
  squared comparison `dz^2 < x^2 + y^2` (both sides nonnegative), and
  `a.distanceTo(b) < t` by `distSq a b < t^2`.
* JavaScript truthiness on numbers (`!x`, `if (LX || LY)`) is modelled
  by comparison with `0`; absent objects (`null`/`undefined` frames,
  sessions, gamepads, joints) are modelled with `Option`.
-/

namespace AVP

/-- Exact 3-vector over `ℚ`, modelling `THREE.Vector3` state. -/
structure Vec3 where
  x : ℚ
  y : ℚ
  z : ℚ
deriving DecidableEq

/-- `position.addScaledVector(v, s)`: componentwise `p + s * v`. -/
def addScaled (p v : Vec3) (s : ℚ) : Vec3 :=
  ⟨p.x + v.x * s, p.y + v.y * s, p.z + v.z * s⟩

/-- Setting `v.y = 0`, the forward-flattening used throughout. -/
def flattenY (v : Vec3) : Vec3 :=
  ⟨v.x, 0, v.z⟩

/-- `v.lengthSq()`. -/
def lengthSq (v : Vec3) : ℚ :=
  v.x ^ 2 + v.y ^ 2 + v.z ^ 2

/-- `v.negate()`. -/
def vneg (v : Vec3) : Vec3 :=
  ⟨-v.x, -v.y, -v.z⟩

/-- Squared distance, modelling `a.distanceTo(b)` squared. -/
def distSq (a b : Vec3) : ℚ :=
  (a.x - b.x) ^ 2 + (a.y - b.y) ^ 2 + (a.z - b.z) ^ 2

/-- Scaling by a reciprocal-length parameter: models `v.normalize()`,
whose scale factor `1 / ‖v‖` is irrational in general and is therefore
passed in as `invLen`. -/
def normWith (v : Vec3) (invLen : ℚ) : Vec3 :=
  ⟨invLen * v.x, invLen * v.y, invLen * v.z⟩

/-- three.js `normalize` maps the zero vector to itself
(`divideScalar(this.length() || 1)`); nonzero vectors are scaled by the
reciprocal length `invLen`. -/
def normalizeWith (v : Vec3) (invLen : ℚ) : Vec3 :=
  if lengthSq v = 0 then v else normWith v invLen

/-- `main.js` navigation tunables: `NAV.moveSpeed`. -/
def moveSpeed : ℚ := 2

/-- `main.js` navigation tunables: `NAV.stepSpeed`. -/
def stepSpeed : ℚ := 10

/-- `main.js` navigation tunables: `NAV.deadzone`. -/
def deadzone : ℚ := 12 / 100

/-- `src/unnamed/part_000` first revision: `NAV.stepSpeed` (its
`moveSpeed` and `deadzone` agree with `main.js`). -/
def stepSpeedB : ℚ := 20

/-- Second revision (`updateXRMovement`): `NAV.moveSpeed`. -/
def moveSpeed2 : ℚ := 11 / 5

/-- Second revision: `NAV.strafeSpeed`. -/
def strafeSpeed2 : ℚ := 2

/-- Second revision: `NAV.stickDeadzone`. -/
def stickDeadzone2 : ℚ := 3 / 20

/-- Second revision: `NAV.pinchThreshold` (meters). -/
def pinchThreshold2 : ℚ := 1 / 40

/-- The deadzone filter appearing at every axis read:
`Math.abs(v) < dz ? 0 : v`. -/
def dzFilter (dz v : ℚ) : ℚ :=
  if |v| < dz then 0 else v

/-- `XRInputSource.handedness`. -/
inductive Handedness where
  | left
  | right
  | none
deriving DecidableEq

/-- `Gamepad` as the code reads it: `gp.axes` may be absent
(`!gp.axes`), otherwise it is a numeric array. -/
structure Gamepad where
  axes : Option (List ℚ)
deriving DecidableEq

/-- An XR input source: handedness, profile strings, optional gamepad. -/
structure XRInputSrc where
  handedness : Handedness
  profiles : List String
  gamepad : Option Gamepad
deriving DecidableEq

/-- `s.includes(sub)` on strings, via `splitOn`: `sub` occurs in `s`
iff splitting on it yields more than one piece. -/
def containsSub (s sub : String) : Bool :=
  (s.splitOn sub).length ≥ 2

/-- One profile string matches when its lowercase form includes
`"vision"`, `"hand"` or `"touch"`. -/
def profileMatchesVP (p : String) : Bool :=
  let s := p.toLower
  containsSub s "vision" || containsSub s "hand" || containsSub s "touch"

/-- `isVisionProInputSource(inputSource)`: `false` for a null source,
`true` for handedness `'none'`, otherwise a profile-string scan. -/
def isVisionProInputSource (src : Option XRInputSrc) : Bool :=
  match src with
  | Option.none => false
  | Option.some i =>
      if i.handedness = Handedness.none then true
      else i.profiles.any profileMatchesVP

/-- A hand's axis pair, `controllerStates.<side>.axes`. -/
structure Axes2 where
  x : ℚ
  y : ℚ
deriving DecidableEq

/-- One slot of `controllerStates`: axes, Vision flag, source. -/
structure HandState where
  axes : Axes2
  isVision : Bool
  input : Option XRInputSrc
deriving DecidableEq

/-- `controllerStates`: the left/right slot pair. -/
structure ControllerStates where
  left : HandState
  right : HandState
deriving DecidableEq

/-- The state `resetStates()` produces: zero axes, flags cleared,
inputs nulled. -/
def emptyStates : ControllerStates :=
  ⟨⟨⟨0, 0⟩, false, Option.none⟩, ⟨⟨0, 0⟩, false, Option.none⟩⟩

/-- The axis read in `updateInputStates`:
`if (gp.axes && gp.axes.length >= 2) { x = gp.axes[0] || 0; y = gp.axes[1] || 0; }`
with `(x, y) = (0, 0)` otherwise. -/
def readAxes (gp : Gamepad) : ℚ × ℚ :=
  match gp.axes with
  | Option.some l => if l.length ≥ 2 then (l.getD 0 0, l.getD 1 0) else (0, 0)
  | Option.none => (0, 0)

/-- The body of the `session.inputSources.forEach` in
`updateInputStates`: skip a source without a gamepad, write the axes
into the left slot for handedness `'left'` and into the right slot
otherwise, then mirror a `'none'`-handed Vision source into the left
slot. -/
def applySrc (cs : ControllerStates) (src : XRInputSrc) : ControllerStates :=
  match src.gamepad with
  | Option.none => cs
  | Option.some gp =>
      let isVP := isVisionProInputSource (Option.some src)
      let xy := readAxes gp
      let st : HandState := ⟨⟨xy.1, xy.2⟩, isVP, Option.some src⟩
      let cs1 :=
        if src.handedness = Handedness.left then { cs with left := st }
        else { cs with right := st }
      if src.handedness = Handedness.none ∧ isVP = true then
        { cs1 with left := ⟨⟨xy.1, xy.2⟩, true, Option.some src⟩ }
      else cs1

/-- `XRSession`, reduced to its per-frame input-source list. -/
structure Session where
  inputSources : List XRInputSrc
deriving DecidableEq

/-- `XRFrame`, reduced to its (possibly absent) session. -/
structure Frame where
  session : Option Session
deriving DecidableEq

/-- `updateInputStates(frame)`: reset both slots, bail out on a missing
frame or session, then fold the sources. -/
def updateInputStates (frame : Option Frame) : ControllerStates :=
  match frame with
  | Option.none => emptyStates
  | Option.some f =>
      match f.session with
      | Option.none => emptyStates
      | Option.some s => s.inputSources.foldl applySrc emptyStates

/-- `headForwardXZ()`: flatten the camera's world direction to the
`Y = 0` plane, fall back to `(0, 0, -1)` when the flattened vector is
zero, then normalize. `camDir` is the camera's world direction and
`invLen` the reciprocal length used by `normalize`. -/
def headForwardXZ (camDir : Vec3) (invLen : ℚ) : Vec3 :=
  let f := flattenY camDir
  let g := if lengthSq f = 0 then (⟨0, 0, -1⟩ : Vec3) else f
  normalizeWith g invLen

/-- The post-deadzone axis pair `applyAVPAxes` acts on: the left
slot's filtered axes, mirrored from the right slot when the left pair
filtered to zero and the right slot is flagged Vision
(`if (!x && !y && controllerStates.right.isVision)`). -/
def effAxes (cs : ControllerStates) : ℚ × ℚ :=
  let x0 := dzFilter deadzone cs.left.axes.x
  let y0 := dzFilter deadzone cs.left.axes.y
  if x0 = 0 ∧ y0 = 0 ∧ cs.right.isVision = true then
    (dzFilter deadzone cs.right.axes.x, dzFilter deadzone cs.right.axes.y)
  else (x0, y0)

/-- `applyAVPAxes(dt)` of `main.js`: with both effective axes zero it
returns `false` and leaves the dolly alone; otherwise it adds
`forward * (-y * moveSpeed * dt)` to the dolly position and returns
`true`. `fwd` stands for the `headForwardXZ()` result and `pos` for
`dolly.position`. The HUD text block is display-only and omitted. -/
def applyAVPAxes (cs : ControllerStates) (fwd pos : Vec3) (dt : ℚ) :
    Bool × Vec3 :=
  let xy := effAxes cs
  if xy.1 = 0 ∧ xy.2 = 0 then (false, pos)
  else (true, addScaled pos fwd (-xy.2 * moveSpeed * dt))

/-- One controller of `[controller1, controller2]`: its
`userData.isSelecting` flag, its `userData.inputSource`, its world ray
direction (`getWorldDirection`), and the reciprocal length of the
flattened ray used by `normalize`. -/
structure Ctrl where
  isSelecting : Bool
  src : Option XRInputSrc
  rayDir : Vec3
  invLen : ℚ
deriving DecidableEq

/-- The guard at the top of both `applyAVPSelectStep` revisions:
`Math.hypot(lx, ly) > NAV.deadzone || Math.hypot(rx, ry) > NAV.deadzone`,
modelled by the equivalent squared comparison. -/
def anyAxes (cs : ControllerStates) : Bool :=
  decide (deadzone ^ 2 < cs.left.axes.x ^ 2 + cs.left.axes.y ^ 2) ||
  decide (deadzone ^ 2 < cs.right.axes.x ^ 2 + cs.right.axes.y ^ 2)

/-- Per-controller body of `applyAVPSelectStep` in `main.js`: when the
controller holds select and its source passes the Vision check, flatten
and normalize its ray, and when the result is nonzero step the dolly
along it by `stepSpeed * dt`. Debug `dot`/HUD lines are omitted. -/
def stepCtrl (dt : ℚ) (pos : Vec3) (c : Ctrl) : Vec3 :=
  if c.isSelecting && isVisionProInputSource c.src then
    let dirXZ := normalizeWith (flattenY c.rayDir) c.invLen
    if 0 < lengthSq dirXZ then addScaled pos dirXZ (stepSpeed * dt) else pos
  else pos

/-- `applyAVPSelectStep(dt)` of `main.js`: return untouched when raw
axis magnitude exceeds the deadzone on either slot, otherwise apply the
per-controller step to `controller1` then `controller2`. -/
def applyAVPSelectStep (cs : ControllerStates) (c1 c2 : Ctrl) (dt : ℚ)
    (pos : Vec3) : Vec3 :=
  if anyAxes cs then pos
  else stepCtrl dt (stepCtrl dt pos c1) c2

/-- Per-controller body of `applyAVPSelectStep` in the first revision
of `src/unnamed/part_000`: negate the ray (`rays point -Z`), flatten,
bail out below `1e-6` squared length, then normalize and step by its
`stepSpeed * dt`. -/
def stepCtrlB (dt : ℚ) (pos : Vec3) (c : Ctrl) : Vec3 :=
  if c.isSelecting && isVisionProInputSource c.src then
    let d := flattenY (vneg c.rayDir)
    if lengthSq d < 1 / 1000000 then pos
    else addScaled pos (normWith d c.invLen) (stepSpeedB * dt)
  else pos

/-- `applyAVPSelectStep(dt)` of the first `part_000` revision: same
axes guard, then the negated-ray per-controller step. -/
def applyAVPSelectStepB (cs : ControllerStates) (c1 c2 : Ctrl) (dt : ℚ)
    (pos : Vec3) : Vec3 :=
  if anyAxes cs then pos
  else stepCtrlB dt (stepCtrlB dt pos c1) c2

/-- The `dt` computation opening every animation-loop body:
`Math.min(clock.getDelta(), 0.05)`. -/
def clampDt (raw : ℚ) : ℚ :=
  min raw (1 / 20)

/-- The XR branch of the `main.js` animation loop after input sampling,
factored over `dt`: `const usedAxes = applyAVPAxes(dt); if (!usedAxes)
applyAVPSelectStep(dt);`. -/
def xrFrameBody (cs : ControllerStates) (c1 c2 : Ctrl) (fwd pos : Vec3)
    (dt : ℚ) : Vec3 :=
  let r := applyAVPAxes cs fwd pos dt
  if r.1 then r.2 else applyAVPSelectStep cs c1 c2 dt pos

/-- The XR branch of the `main.js` animation loop for one frame:
clamp the clock delta, sample input states, then resolve locomotion. -/
def xrFrame (frame : Option Frame) (c1 c2 : Ctrl) (fwd pos : Vec3)
    (raw : ℚ) : Vec3 :=
  xrFrameBody (updateInputStates frame) c1 c2 fwd pos (clampDt raw)

/-- A tracked hand as `isPinching` reads it: optional world positions
of the `'index-finger-tip'` and `'thumb-tip'` joints
(`jointWorldPos` returns `null` for a missing joint). -/
structure Hand where
  indexTip : Option Vec3
  thumbTip : Option Vec3
deriving DecidableEq

/-- `isPinching(hand)` of the second `part_000` revision: `false`
unless both joints exist and their distance is below
`NAV.pinchThreshold` (modelled by the squared comparison). A null hand
has no joints. -/
def isPinching (h : Option Hand) : Bool :=
  match h with
  | Option.none => false
  | Option.some hd =>
      match hd.indexTip, hd.thumbTip with
      | Option.some a, Option.some b =>
          decide (distSq a b < pinchThreshold2 ^ 2)
      | _, _ => false

/-- Player-rig state of the second revision: `player.position` and
`yawPivot.rotation.y`. -/
structure XRState where
  pos : Vec3
  yaw : ℚ
deriving DecidableEq

/-- The per-source stick body of `updateXRMovement`: skip sources
without gamepad axes, read axes `[0] [1] [2]` with `?? 0`, filter by
the stick deadzone, translate head-relative when `LX || LY`, and yaw
by `-RX * rotateSpeed * dt` when `RX`. `rotateSpeed` is passed in
because the source value `degToRad(100)` is irrational. -/
def stickStep (fwd rightV : Vec3) (rotateSpeed dt : ℚ) (st : XRState)
    (src : XRInputSrc) : XRState :=
  match src.gamepad with
  | Option.none => st
  | Option.some gp =>
      match gp.axes with
      | Option.none => st
      | Option.some ax =>
          let lsx := ax.getD 0 0
          let lsy := ax.getD 1 0
          let rsx := ax.getD 2 0
          let LX := dzFilter stickDeadzone2 lsx
          let LY := dzFilter stickDeadzone2 lsy
          let RX := dzFilter stickDeadzone2 rsx
          let moved := addScaled (addScaled st.pos fwd (-LY * moveSpeed2 * dt))
            rightV (LX * strafeSpeed2 * dt)
          let st1 :=
            if ¬(LX = 0 ∧ LY = 0) then { st with pos := moved } else st
          if ¬(RX = 0) then { st1 with yaw := st1.yaw - RX * rotateSpeed * dt }
          else st1

/-- `updateXRMovement(dt)` of the second `part_000` revision: return
untouched without a session; otherwise fold the stick body over the
input sources, then apply right-pinch forward translation and
left-pinch rotation. `fwd`/`rightV` stand for `headForwardXZ()` /
`headRightXZ()`, and `leftRate` for the `leftHandRotateRate()` value,
whose internal normalisations are irrational in general. -/
def updateXRMovement (session : Option Session)
    (leftHand rightHand : Option Hand) (fwd rightV : Vec3)
    (rotateSpeed leftRate dt : ℚ) (st : XRState) : XRState :=
  match session with
  | Option.none => st
  | Option.some s =>
      let st1 := s.inputSources.foldl (stickStep fwd rightV rotateSpeed dt) st
      let leftPinch := isPinching leftHand
      let rightPinch := isPinching rightHand
      let st2 :=
        if rightPinch then
          { st1 with pos := addScaled st1.pos fwd (moveSpeed2 * dt) }
        else st1
      if leftPinch then
        { st2 with yaw := st2.yaw + leftRate * rotateSpeed * dt }
      else st2

end AVP

namespace AVP

/-! ## Helper lemmas shared across the claim theorems -/

/-- A value strictly inside the deadzone is filtered to zero. -/
theorem dzFilter_eq_zero (dz v : ℚ) (h : |v| < dz) : dzFilter dz v = 0 :=
  if_pos h

/-- A value at or beyond the deadzone passes through unchanged. -/
theorem dzFilter_eq_self (dz v : ℚ) (h : dz ≤ |v|) : dzFilter dz v = v :=
  if_neg (not_lt.mpr h)

/-- Flattening zeroes the `y` component. -/
theorem flattenY_y (v : Vec3) : (flattenY v).y = 0 := rfl

/-- `normWith` preserves a zero `y` component. -/
theorem normWith_y0 (v : Vec3) (invLen : ℚ) (h : v.y = 0) :
    (normWith v invLen).y = 0 := by
  simp [normWith, h]

/-- `normalizeWith` preserves a zero `y` component. -/
theorem normalizeWith_y0 (v : Vec3) (invLen : ℚ) (h : v.y = 0) :
    (normalizeWith v invLen).y = 0 := by
  unfold normalizeWith
  split
  · exact h
  · exact normWith_y0 v invLen h

/-- `addScaled` changes `y` only through the added vector's `y`. -/
theorem addScaled_y (p v : Vec3) (s : ℚ) :
    (addScaled p v s).y = p.y + v.y * s := rfl

/-- Adding a `y = 0` vector preserves the `y` coordinate. -/
theorem addScaled_y0 (p v : Vec3) (s : ℚ) (h : v.y = 0) :
    (addScaled p v s).y = p.y := by
  rw [addScaled_y, h, zero_mul, add_zero]

/-- The `main.js` per-controller select step never changes `y`. -/
theorem stepCtrl_y (dt : ℚ) (pos : Vec3) (c : Ctrl) :
    (stepCtrl dt pos c).y = pos.y := by
  simp only [stepCtrl]
  split
  · split
    · exact addScaled_y0 _ _ _ (normalizeWith_y0 _ _ (flattenY_y _))
    · rfl
  · rfl

/-- The first-revision per-controller select step never changes `y`. -/
theorem stepCtrlB_y (dt : ℚ) (pos : Vec3) (c : Ctrl) :
    (stepCtrlB dt pos c).y = pos.y := by
  simp only [stepCtrlB]
  split
  · split
    · rfl
    · exact addScaled_y0 _ _ _ (normWith_y0 _ _ (flattenY_y _))
  · rfl

/-- The stick body of `updateXRMovement` preserves the position's `y`
when the forward and right directions are flattened. -/
theorem stickStep_pos_y (fwd rightV : Vec3) (rs dt : ℚ) (st : XRState)
    (src : XRInputSrc) (hf : fwd.y = 0) (hr : rightV.y = 0) :
    (stickStep fwd rightV rs dt st src).pos.y = st.pos.y := by
  rcases hgp : src.gamepad with _ | gp
  · simp [stickStep, hgp]
  · rcases hax : gp.axes with _ | ax
    · simp [stickStep, hgp, hax]
    · simp only [stickStep, hgp, hax]
      split <;> split <;>
        simp [addScaled_y0 _ _ _ hr, addScaled_y0 _ _ _ hf]

/-- Folding the stick body over any source list preserves `y`. -/
theorem foldl_stickStep_pos_y (fwd rightV : Vec3) (rs dt : ℚ)
    (l : List XRInputSrc) (st : XRState) (hf : fwd.y = 0) (hr : rightV.y = 0) :
    (l.foldl (stickStep fwd rightV rs dt) st).pos.y = st.pos.y := by
  induction l generalizing st with
  | nil => rfl
  | cons a t ih =>
      rw [List.foldl_cons, ih (stickStep fwd rightV rs dt st a)]
      exact stickStep_pos_y fwd rightV rs dt st a hf hr

end AVP

namespace AVP

/-- The axis path fires exactly when the effective post-deadzone pair
is nonzero. -/
theorem applyAVPAxes_fst (cs : ControllerStates) (fwd pos : Vec3) (dt : ℚ) :
    (applyAVPAxes cs fwd pos dt).1 = true ↔
      ¬((effAxes cs).1 = 0 ∧ (effAxes cs).2 = 0) := by
  by_cases hc : (effAxes cs).1 = 0 ∧ (effAxes cs).2 = 0 <;>
    simp [applyAVPAxes, hc]

/-- When the left slot filters to zero and the right slot is flagged
Vision, the effective axes are the right slot's filtered pair. -/
theorem effAxes_mirror (cs : ControllerStates)
    (h1 : dzFilter deadzone cs.left.axes.x = 0)
    (h2 : dzFilter deadzone cs.left.axes.y = 0)
    (hV : cs.right.isVision = true) :
    effAxes cs =
      (dzFilter deadzone cs.right.axes.x, dzFilter deadzone cs.right.axes.y) := by
  simp [effAxes, h1, h2, hV]

/-- When the left slot's filtered pair is nonzero, the effective axes
are the left slot's filtered pair. -/
theorem effAxes_left_of_nonzero (cs : ControllerStates)
    (h : ¬(dzFilter deadzone cs.left.axes.x = 0 ∧
           dzFilter deadzone cs.left.axes.y = 0)) :
    effAxes cs =
      (dzFilter deadzone cs.left.axes.x, dzFilter deadzone cs.left.axes.y) := by
  simp only [effAxes]
  rw [if_neg]
  intro hc
  exact h ⟨hc.1, hc.2.1⟩

/-- When the right slot is not flagged Vision, the effective axes are
the left slot's filtered pair. -/
theorem effAxes_left_of_nonvision (cs : ControllerStates)
    (hV : cs.right.isVision = false) :
    effAxes cs =
      (dzFilter deadzone cs.left.axes.x, dzFilter deadzone cs.left.axes.y) := by
  simp only [effAxes]
  rw [if_neg]
  intro hc
  rw [hV] at hc
  exact Bool.false_ne_true hc.2.2

end AVP

namespace AVP

/-! ## Claim theorems -/

/-- C2 (confirmed): whenever the axis-drive path fires, the new rig
position is exactly `pos + forward * (-y * moveSpeed * dt)` for the
post-deadzone effective `y`; the `x` axis value does not appear in the
translation (no strafe). -/
theorem applyAVPAxes_translation_formula (cs : ControllerStates)
    (fwd pos : Vec3) (dt : ℚ)
    (h : (applyAVPAxes cs fwd pos dt).1 = true) :
    (applyAVPAxes cs fwd pos dt).2 =
      addScaled pos fwd (-(effAxes cs).2 * moveSpeed * dt) := by
  by_cases hc : (effAxes cs).1 = 0 ∧ (effAxes cs).2 = 0
  · simp [applyAVPAxes, hc] at h
  · simp [applyAVPAxes, hc]

/-- Witness for C2: the formula evaluated at left axes `(0, -1)`,
forward `(0, 0, -1)`, `dt = 1/10`. -/
theorem applyAVPAxes_translation_formula_witness :
    (applyAVPAxes ⟨⟨⟨0, -1⟩, true, Option.none⟩, ⟨⟨0, 0⟩, false, Option.none⟩⟩
        ⟨0, 0, -1⟩ ⟨0, 0, 0⟩ (1/10)).2 =
      addScaled ⟨0, 0, 0⟩ ⟨0, 0, -1⟩
        (-(effAxes ⟨⟨⟨0, -1⟩, true, Option.none⟩,
            ⟨⟨0, 0⟩, false, Option.none⟩⟩).2 * moveSpeed * (1/10)) :=
  applyAVPAxes_translation_formula _ _ _ _ (by
    simp [applyAVPAxes, effAxes, dzFilter, deadzone]
    norm_num)

/-- C3 (corrected, amended form): at head forward `(0, 0, -1)`, left
axis `(0, -1)`, `dt = 1/10` and the `main.js` `moveSpeed = 2`, the
axis path fires and the rig position delta is `(0, 0, -1/5)`:
`position.z` decreases by `0.2`. -/
theorem applyAVPAxes_scenario_eval :
    applyAVPAxes ⟨⟨⟨0, -1⟩, true, Option.none⟩, ⟨⟨0, 0⟩, false, Option.none⟩⟩
      ⟨0, 0, -1⟩ ⟨0, 0, 0⟩ (1/10) = (true, ⟨0, 0, -(1/5)⟩) := by
  simp [applyAVPAxes, effAxes, dzFilter, deadzone, moveSpeed, addScaled]
  norm_num

/-- C3 counterexample: in that scenario the code moves the rig to
`z = -1/5`, not to the claimed `z = +1/5`; the spec's expected delta
`(0, 0, 0.2)` is wrong on sign. -/
theorem applyAVPAxes_scenario_delta_neg :
    (applyAVPAxes ⟨⟨⟨0, -1⟩, true, Option.none⟩, ⟨⟨0, 0⟩, false, Option.none⟩⟩
        ⟨0, 0, -1⟩ ⟨0, 0, 0⟩ (1/10)).2 = ⟨0, 0, -(1/5)⟩ ∧
    ¬((⟨0, 0, -(1/5)⟩ : Vec3) = ⟨0, 0, 1/5⟩) := by
  constructor
  · simp [applyAVPAxes, effAxes, dzFilter, deadzone, moveSpeed, addScaled]
    norm_num
  · intro h
    have hz : (-(1/5) : ℚ) = 1/5 := congrArg Vec3.z h
    norm_num at hz

/-- C4 (corrected, amended form): the deadzone filter zeroes a value
whose absolute value is strictly below the threshold and passes
through unchanged any value at or above it — in particular a value
exactly at the threshold is kept, not zeroed. -/
theorem dzFilter_boundary_kept (dz v : ℚ) :
    (|v| < dz → dzFilter dz v = 0) ∧ (dz ≤ |v| → dzFilter dz v = v) :=
  ⟨dzFilter_eq_zero dz v, dzFilter_eq_self dz v⟩

/-- Witness for C4's amended theorem: `1/10` is zeroed by the `12/100`
deadzone while the boundary value `12/100` passes through. -/
theorem dzFilter_boundary_kept_witness :
    dzFilter deadzone (1/10) = 0 ∧ dzFilter deadzone (12/100) = 12/100 :=
  ⟨(dzFilter_boundary_kept deadzone (1/10)).1 (by
      rw [abs_of_nonneg (by norm_num : (0:ℚ) ≤ 1/10), deadzone]
      norm_num),
    (dzFilter_boundary_kept deadzone (12/100)).2 (by
      rw [abs_of_nonneg (by norm_num : (0:ℚ) ≤ 12/100), deadzone])⟩

/-- C4 counterexample: an axis value exactly at the threshold
(`12/100`) is not treated as zero — the filter keeps it, the axis
path fires on it, and the rig moves by `(0, 0, 3/125)`. -/
theorem dzFilter_keeps_boundary_value :
    dzFilter deadzone deadzone = 12/100 ∧
    ¬dzFilter deadzone deadzone = 0 ∧
    applyAVPAxes ⟨⟨⟨0, 12/100⟩, true, Option.none⟩, ⟨⟨0, 0⟩, false, Option.none⟩⟩
      ⟨0, 0, -1⟩ ⟨0, 0, 0⟩ (1/10) = (true, ⟨0, 0, 3/125⟩) ∧
    ¬((⟨0, 0, 3/125⟩ : Vec3) = ⟨0, 0, 0⟩) := by
  have hkeep : dzFilter deadzone deadzone = 12/100 := by
    rw [dzFilter, deadzone]
    rw [if_neg (by rw [abs_of_nonneg] <;> norm_num)]
  refine ⟨hkeep, ?_, ?_, ?_⟩
  · rw [hkeep]
    norm_num
  · simp [applyAVPAxes, effAxes, dzFilter, deadzone, moveSpeed, addScaled, abs_lt]
    norm_num
  · intro h
    have hz : (3/125 : ℚ) = 0 := congrArg Vec3.z h
    norm_num at hz

/-- C7 (confirmed): when all four stored axis values filter to zero
the axis-drive path reports `false` and returns the rig position
untouched. -/
theorem applyAVPAxes_zero_filtered_no_motion (cs : ControllerStates)
    (fwd pos : Vec3) (dt : ℚ)
    (h1 : dzFilter deadzone cs.left.axes.x = 0)
    (h2 : dzFilter deadzone cs.left.axes.y = 0)
    (h3 : dzFilter deadzone cs.right.axes.x = 0)
    (h4 : dzFilter deadzone cs.right.axes.y = 0) :
    applyAVPAxes cs fwd pos dt = (false, pos) := by
  simp [applyAVPAxes, effAxes, h1, h2, h3, h4]

/-- Witness for C7: both hands inside the deadzone, right slot flagged
Vision, position untouched. -/
theorem applyAVPAxes_zero_filtered_no_motion_witness :
    applyAVPAxes ⟨⟨⟨1/100, -(1/100)⟩, true, Option.none⟩,
        ⟨⟨1/10, 0⟩, true, Option.none⟩⟩ ⟨0, 0, -1⟩ ⟨3, 0, 7⟩ (1/10) =
      (false, ⟨3, 0, 7⟩) :=
  applyAVPAxes_zero_filtered_no_motion _ _ _ _
    (by simp [dzFilter, deadzone, abs_lt] <;> norm_num)
    (by simp [dzFilter, deadzone, abs_lt] <;> norm_num)
    (by simp [dzFilter, deadzone, abs_lt] <;> norm_num)
    (by simp [dzFilter, deadzone, abs_lt] <;> norm_num)

end AVP

namespace AVP

/-- C6 (corrected, amended form): the axis-drive path fires iff the
left slot's post-deadzone pair is nonzero, or that pair is zero, the
right slot is flagged Vision, and the right slot's post-deadzone pair
is nonzero. A right-hand source that is not flagged Vision never
fires the path, whatever its axes. -/
theorem applyAVPAxes_fires_iff (cs : ControllerStates) (fwd pos : Vec3)
    (dt : ℚ) :
    (applyAVPAxes cs fwd pos dt).1 = true ↔
      (¬(dzFilter deadzone cs.left.axes.x = 0 ∧
         dzFilter deadzone cs.left.axes.y = 0) ∨
       (dzFilter deadzone cs.left.axes.x = 0 ∧
        dzFilter deadzone cs.left.axes.y = 0 ∧
        cs.right.isVision = true ∧
        ¬(dzFilter deadzone cs.right.axes.x = 0 ∧
          dzFilter deadzone cs.right.axes.y = 0))) := by
  rw [applyAVPAxes_fst]
  by_cases hL : dzFilter deadzone cs.left.axes.x = 0 ∧
      dzFilter deadzone cs.left.axes.y = 0
  · cases hV : cs.right.isVision with
    | false =>
        rw [effAxes_left_of_nonvision cs hV]
        simp [hL.1, hL.2, hV]
    | true =>
        rw [effAxes_mirror cs hL.1 hL.2 hV]
        simp [hL.1, hL.2, hV]
  · rw [effAxes_left_of_nonzero cs hL]
    simp [hL]

/-- Witness for C6's amended theorem: left axes `(0, -1)` make the
path fire. -/
theorem applyAVPAxes_fires_iff_witness :
    (applyAVPAxes ⟨⟨⟨0, -1⟩, true, Option.none⟩,
        ⟨⟨0, 0⟩, false, Option.none⟩⟩ ⟨0, 0, -1⟩ ⟨0, 0, 0⟩ (1/10)).1 = true :=
  (applyAVPAxes_fires_iff _ _ _ _).mpr
    (Or.inl (by simp [dzFilter, deadzone, abs_lt] <;> norm_num))

/-- C6 counterexample: a right-hand source with an empty profile list
(not flagged Vision) reports axis `y = 1/2`, well beyond the deadzone
and surviving the filter, yet the axis-drive path does not fire and
the rig does not move. -/
theorem applyAVPAxes_ignores_nonvision_right :
    dzFilter deadzone (1/2) = 1/2 ∧
    ¬((1/2 : ℚ) = 0) ∧
    updateInputStates (Option.some ⟨Option.some ⟨[⟨Handedness.right, [],
        Option.some ⟨Option.some [0, 1/2]⟩⟩]⟩⟩) =
      ⟨⟨⟨0, 0⟩, false, Option.none⟩,
        ⟨⟨0, 1/2⟩, false,
          Option.some ⟨Handedness.right, [], Option.some ⟨Option.some [0, 1/2]⟩⟩⟩⟩ ∧
    applyAVPAxes (updateInputStates (Option.some ⟨Option.some ⟨[⟨Handedness.right, [],
        Option.some ⟨Option.some [0, 1/2]⟩⟩]⟩⟩)) ⟨0, 0, -1⟩ ⟨0, 0, 0⟩ (1/10) =
      (false, ⟨0, 0, 0⟩) := by
  refine ⟨?_, by norm_num, ?_, ?_⟩
  · exact dzFilter_eq_self _ _ (by
      rw [abs_of_nonneg (by norm_num : (0:ℚ) ≤ 1/2), deadzone]
      norm_num)
  · simp [updateInputStates, applySrc, readAxes, isVisionProInputSource, emptyStates]
  · simp [updateInputStates, applySrc, readAxes, isVisionProInputSource,
      emptyStates, applyAVPAxes, effAxes, dzFilter, deadzone, abs_lt]

/-- C1 (corrected, amended form): in the `main.js` loop at most one
locomotion path runs per frame — when the axis path fires the
select-step is skipped entirely, and the select-step independently
returns without moving the rig whenever either slot's raw axis
magnitude exceeds the deadzone. -/
theorem mainLoop_single_mode_per_frame (cs : ControllerStates) (c1 c2 : Ctrl)
    (fwd pos : Vec3) (dt : ℚ) :
    ((applyAVPAxes cs fwd pos dt).1 = true →
      xrFrameBody cs c1 c2 fwd pos dt = (applyAVPAxes cs fwd pos dt).2) ∧
    (anyAxes cs = true → applyAVPSelectStep cs c1 c2 dt pos = pos) := by
  constructor
  · intro h
    simp [xrFrameBody, h]
  · intro h
    simp [applyAVPSelectStep, h]

/-- Witness for C1's amended theorem: with left axes `(0, -1)` the
frame resolves to the axis path alone and the select-step is inert. -/
theorem mainLoop_single_mode_per_frame_witness :
    xrFrameBody ⟨⟨⟨0, -1⟩, true, Option.none⟩, ⟨⟨0, 0⟩, false, Option.none⟩⟩
        ⟨true, Option.some ⟨Handedness.none, [], Option.none⟩, ⟨0, 0, -1⟩, 1⟩
        ⟨true, Option.some ⟨Handedness.none, [], Option.none⟩, ⟨0, 0, -1⟩, 1⟩
        ⟨0, 0, -1⟩ ⟨0, 0, 0⟩ (1/10) =
      (applyAVPAxes ⟨⟨⟨0, -1⟩, true, Option.none⟩,
        ⟨⟨0, 0⟩, false, Option.none⟩⟩ ⟨0, 0, -1⟩ ⟨0, 0, 0⟩ (1/10)).2 ∧
    applyAVPSelectStep ⟨⟨⟨0, -1⟩, true, Option.none⟩,
        ⟨⟨0, 0⟩, false, Option.none⟩⟩
        ⟨true, Option.some ⟨Handedness.none, [], Option.none⟩, ⟨0, 0, -1⟩, 1⟩
        ⟨true, Option.some ⟨Handedness.none, [], Option.none⟩, ⟨0, 0, -1⟩, 1⟩
        (1/10) ⟨0, 0, 0⟩ = ⟨0, 0, 0⟩ :=
  ⟨(mainLoop_single_mode_per_frame _ _ _ _ _ _).1
      (by simp [applyAVPAxes, effAxes, dzFilter, deadzone, abs_lt] <;> norm_num),
    (mainLoop_single_mode_per_frame
        ⟨⟨⟨0, -1⟩, true, Option.none⟩, ⟨⟨0, 0⟩, false, Option.none⟩⟩
        ⟨true, Option.some ⟨Handedness.none, [], Option.none⟩, ⟨0, 0, -1⟩, 1⟩
        ⟨true, Option.some ⟨Handedness.none, [], Option.none⟩, ⟨0, 0, -1⟩, 1⟩
        ⟨0, 0, -1⟩ ⟨0, 0, 0⟩ (1/10)).2
      (by
        simp only [anyAxes, deadzone]
        norm_num)⟩

/-- C1 counterexample: in `updateXRMovement` the axis path and the
pinch path are not exclusive. With one stick source at post-deadzone
`y = -1` and the right hand pinching, the rig moves by the sum of the
two deltas (`z = -11/25`), whereas with the same stick input and no
pinch it moves by the axis delta only (`z = -11/50`): a pinch step is
applied in the same frame as nonzero post-deadzone axis input. -/
theorem updateXRMovement_axis_and_pinch_same_frame :
    dzFilter stickDeadzone2 (-1) = -1 ∧
    ¬((-1 : ℚ) = 0) ∧
    updateXRMovement (Option.some ⟨[⟨Handedness.none, [],
        Option.some ⟨Option.some [0, -1, 0]⟩⟩]⟩)
        Option.none (Option.some ⟨Option.some ⟨0, 0, 0⟩, Option.some ⟨0, 0, 0⟩⟩)
        ⟨0, 0, -1⟩ ⟨1, 0, 0⟩ 0 0 (1/10) ⟨⟨0, 0, 0⟩, 0⟩ =
      ⟨⟨0, 0, -(11/25)⟩, 0⟩ ∧
    updateXRMovement (Option.some ⟨[⟨Handedness.none, [],
        Option.some ⟨Option.some [0, -1, 0]⟩⟩]⟩)
        Option.none Option.none
        ⟨0, 0, -1⟩ ⟨1, 0, 0⟩ 0 0 (1/10) ⟨⟨0, 0, 0⟩, 0⟩ =
      ⟨⟨0, 0, -(11/50)⟩, 0⟩ ∧
    ¬((⟨⟨0, 0, -(11/25)⟩, 0⟩ : XRState) = ⟨⟨0, 0, -(11/50)⟩, 0⟩) := by
  refine ⟨?_, by norm_num, ?_, ?_, ?_⟩
  · exact dzFilter_eq_self _ _ (by
      rw [abs_of_nonpos (by norm_num : (-1:ℚ) ≤ 0), stickDeadzone2]
      norm_num)
  · simp [updateXRMovement, stickStep, isPinching, distSq, pinchThreshold2,
      dzFilter, stickDeadzone2, moveSpeed2, strafeSpeed2, addScaled, abs_lt]
    norm_num
  · simp [updateXRMovement, stickStep, isPinching, distSq, pinchThreshold2,
      dzFilter, stickDeadzone2, moveSpeed2, strafeSpeed2, addScaled, abs_lt]
    norm_num
  · intro h
    have hp : (⟨⟨0, 0, -(11/25)⟩, 0⟩ : XRState).pos.z =
        (⟨⟨0, 0, -(11/50)⟩, 0⟩ : XRState).pos.z := by rw [h]
    norm_num at hp

end AVP

namespace AVP

/-- C5 counterexample: with both controllers holding select on Vision
sources, head forward `(0, 0, -1)`, both rays `(0, 0, -1)` and
`dt = 1/10`, the rig moves to `z = -2` — two independent forward steps
along the rays (`z` decreases, along head-forward) — whereas backward
motion along head-forward would require `z` to increase. There is no
dual-pinch backward path. -/
theorem selectStep_dual_select_moves_forward :
    applyAVPSelectStep emptyStates
        ⟨true, Option.some ⟨Handedness.none, [], Option.none⟩, ⟨0, 0, -1⟩, 1⟩
        ⟨true, Option.some ⟨Handedness.none, [], Option.none⟩, ⟨0, 0, -1⟩, 1⟩
        (1/10) ⟨0, 0, 0⟩ = ⟨0, 0, -2⟩ ∧
    (⟨0, 0, -2⟩ : Vec3).z < 0 := by
  constructor
  · simp [applyAVPSelectStep, anyAxes, emptyStates, stepCtrl, isVisionProInputSource,
      normalizeWith, normWith, flattenY, lengthSq, addScaled, stepSpeed, deadzone]
    norm_num
  · norm_num

/-- C5 (corrected, amended form): when no raw axis magnitude exceeds
the deadzone and both controllers hold select on Vision sources with
nonzero flattened rays, each controller contributes its own forward
step `stepSpeed * dt` along its own flattened-normalized ray; the two
steps compose — there is no dedicated dual-pinch mode, no precedence
between the hands, and no backward motion. -/
theorem selectStep_dual_select_sum_of_steps (cs : ControllerStates)
    (c1 c2 : Ctrl) (dt : ℚ) (pos : Vec3)
    (hax : anyAxes cs = false)
    (h1 : c1.isSelecting = true) (hv1 : isVisionProInputSource c1.src = true)
    (h2 : c2.isSelecting = true) (hv2 : isVisionProInputSource c2.src = true)
    (hd1 : 0 < lengthSq (normalizeWith (flattenY c1.rayDir) c1.invLen))
    (hd2 : 0 < lengthSq (normalizeWith (flattenY c2.rayDir) c2.invLen)) :
    applyAVPSelectStep cs c1 c2 dt pos =
      addScaled
        (addScaled pos (normalizeWith (flattenY c1.rayDir) c1.invLen)
          (stepSpeed * dt))
        (normalizeWith (flattenY c2.rayDir) c2.invLen) (stepSpeed * dt) := by
  simp [applyAVPSelectStep, hax, stepCtrl, h1, hv1, h2, hv2, hd1, hd2]

/-- Witness for C5's amended theorem, evaluated at both rays
`(0, 0, -1)`. -/
theorem selectStep_dual_select_sum_of_steps_witness :
    applyAVPSelectStep emptyStates
        ⟨true, Option.some ⟨Handedness.none, [], Option.none⟩, ⟨0, 0, -1⟩, 1⟩
        ⟨true, Option.some ⟨Handedness.none, [], Option.none⟩, ⟨0, 0, -1⟩, 1⟩
        (1/10) ⟨0, 0, 0⟩ =
      addScaled
        (addScaled ⟨0, 0, 0⟩
          (normalizeWith (flattenY ⟨0, 0, -1⟩) 1) (stepSpeed * (1/10)))
        (normalizeWith (flattenY ⟨0, 0, -1⟩) 1) (stepSpeed * (1/10)) :=
  selectStep_dual_select_sum_of_steps _ _ _ _ _
    (by
      simp only [anyAxes, emptyStates, deadzone]
      norm_num)
    rfl rfl rfl rfl
    (by simp [normalizeWith, normWith, flattenY, lengthSq])
    (by simp [normalizeWith, normWith, flattenY, lengthSq])

end AVP

namespace AVP

/-- C8 (confirmed): every absent-or-malformed-input case degrades to
zero input / no motion, with no exception (all the embedded functions
are total): a missing frame or session yields the reset states; a
source without a gamepad is skipped; a gamepad without an axes array,
or with fewer than two axes, reads as `(0, 0)`; a missing hand or a
hand with a missing joint is never pinching; and `updateXRMovement`
without a session leaves the rig untouched. -/
theorem degraded_input_no_motion :
    updateInputStates Option.none = emptyStates ∧
    updateInputStates (Option.some ⟨Option.none⟩) = emptyStates ∧
    (∀ cs : ControllerStates, ∀ src : XRInputSrc,
      src.gamepad = Option.none → applySrc cs src = cs) ∧
    (∀ gp : Gamepad, gp.axes = Option.none → readAxes gp = (0, 0)) ∧
    (∀ gp : Gamepad, ∀ l : List ℚ,
      gp.axes = Option.some l → l.length < 2 → readAxes gp = (0, 0)) ∧
    isPinching Option.none = false ∧
    (∀ h : Hand, h.indexTip = Option.none ∨ h.thumbTip = Option.none →
      isPinching (Option.some h) = false) ∧
    (∀ lh rh : Option Hand, ∀ fwd rightV : Vec3, ∀ rs lr dt : ℚ,
      ∀ st : XRState,
      updateXRMovement Option.none lh rh fwd rightV rs lr dt st = st) := by
  refine ⟨rfl, rfl, ?_, ?_, ?_, rfl, ?_, ?_⟩
  · intro cs src hgp
    simp [applySrc, hgp]
  · intro gp hax
    simp [readAxes, hax]
  · intro gp l hax hlen
    simp [readAxes, hax, Nat.not_le.mpr hlen]
  · intro h hj
    rcases hj with hj | hj <;> simp [isPinching, hj]
  · intro lh rh fwd rightV rs lr dt st
    rfl

/-- Witness for C8, each degraded case at a concrete input. -/
theorem degraded_input_no_motion_witness :
    applySrc emptyStates ⟨Handedness.left, [], Option.none⟩ = emptyStates ∧
    readAxes ⟨Option.none⟩ = (0, 0) ∧
    readAxes ⟨Option.some [5]⟩ = (0, 0) ∧
    isPinching (Option.some ⟨Option.none, Option.some ⟨0, 0, 0⟩⟩) = false ∧
    updateXRMovement Option.none Option.none Option.none ⟨0, 0, -1⟩ ⟨1, 0, 0⟩
      0 0 (1/10) ⟨⟨0, 0, 0⟩, 0⟩ = ⟨⟨0, 0, 0⟩, 0⟩ :=
  ⟨degraded_input_no_motion.2.2.1 emptyStates ⟨Handedness.left, [], Option.none⟩ rfl,
    degraded_input_no_motion.2.2.2.1 ⟨Option.none⟩ rfl,
    degraded_input_no_motion.2.2.2.2.1 ⟨Option.some [5]⟩ [5] rfl (by norm_num),
    degraded_input_no_motion.2.2.2.2.2.2.1 ⟨Option.none, Option.some ⟨0, 0, 0⟩⟩
      (Or.inl rfl),
    degraded_input_no_motion.2.2.2.2.2.2.2 Option.none Option.none ⟨0, 0, -1⟩
      ⟨1, 0, 0⟩ 0 0 (1/10) ⟨⟨0, 0, 0⟩, 0⟩⟩

/-- C9 (confirmed): the loop's `dt` is the raw clock delta clamped
from above to `0.05 = 1/20` seconds; it is nonnegative for a
nonnegative raw delta, the `main.js` XR frame resolves locomotion at
exactly this clamped `dt`, and consequently the axis-path translation
scalar is bounded in magnitude by `|y| * moveSpeed * (1/20)`
regardless of how large the raw frame delta was. -/
theorem frame_dt_clamped (raw : ℚ) (hraw : 0 ≤ raw) :
    clampDt raw = min raw (1/20) ∧
    clampDt raw ≤ 1/20 ∧
    0 ≤ clampDt raw ∧
    (∀ frame : Option Frame, ∀ c1 c2 : Ctrl, ∀ fwd pos : Vec3,
      xrFrame frame c1 c2 fwd pos raw =
        xrFrameBody (updateInputStates frame) c1 c2 fwd pos (min raw (1/20))) ∧
    (∀ y : ℚ, |(-y) * moveSpeed * clampDt raw| ≤ |y| * moveSpeed * (1/20)) := by
  have h0 : 0 ≤ clampDt raw := le_min hraw (by norm_num)
  have h20 : clampDt raw ≤ 1/20 := min_le_right _ _
  refine ⟨rfl, h20, h0, fun _ _ _ _ _ => rfl, fun y => ?_⟩
  rw [abs_mul, abs_mul, abs_neg, abs_of_nonneg h0,
    abs_of_nonneg (by norm_num [moveSpeed] : (0:ℚ) ≤ moveSpeed)]
  exact mul_le_mul_of_nonneg_left h20
    (mul_nonneg (abs_nonneg y) (by norm_num [moveSpeed]))

/-- Witness for C9 at raw delta `1` (a one-second hitch): the clamp
takes effect and the scalar bound holds at `y = -1`. -/
theorem frame_dt_clamped_witness :
    clampDt 1 = min 1 (1/20) ∧
    clampDt 1 ≤ 1/20 ∧
    |(-(-1) : ℚ) * moveSpeed * clampDt 1| ≤ |(-1 : ℚ)| * moveSpeed * (1/20) :=
  ⟨(frame_dt_clamped 1 (by norm_num)).1,
    (frame_dt_clamped 1 (by norm_num)).2.1,
    (frame_dt_clamped 1 (by norm_num)).2.2.2.2 (-1)⟩

/-- C10 (confirmed): every locomotion operation preserves the rig's
vertical position. Given flattened forward/right directions (which is
what `headForwardXZ` always produces — last conjunct), the axis path,
both select-step revisions and the whole of `updateXRMovement`
(stick drive, pinch-forward and gesture yaw) leave the `y` component
of the rig position unchanged. -/
theorem locomotion_preserves_height (cs : ControllerStates) (c1 c2 : Ctrl)
    (session : Option Session) (lh rh : Option Hand) (fwd rightV pos : Vec3)
    (st : XRState) (rs lr dt : ℚ) (hf : fwd.y = 0) (hr : rightV.y = 0) :
    ((applyAVPAxes cs fwd pos dt).2).y = pos.y ∧
    (applyAVPSelectStep cs c1 c2 dt pos).y = pos.y ∧
    (applyAVPSelectStepB cs c1 c2 dt pos).y = pos.y ∧
    (updateXRMovement session lh rh fwd rightV rs lr dt st).pos.y = st.pos.y ∧
    (∀ camDir : Vec3, ∀ invLen : ℚ, (headForwardXZ camDir invLen).y = 0) := by
  refine ⟨?_, ?_, ?_, ?_, ?_⟩
  · by_cases hc : (effAxes cs).1 = 0 ∧ (effAxes cs).2 = 0
    · simp [applyAVPAxes, hc]
    · simp [applyAVPAxes, hc, addScaled_y0 _ _ _ hf]
  · unfold applyAVPSelectStep
    split
    · rfl
    · rw [stepCtrl_y, stepCtrl_y]
  · unfold applyAVPSelectStepB
    split
    · rfl
    · rw [stepCtrlB_y, stepCtrlB_y]
  · rcases session with _ | s
    · rfl
    · simp only [updateXRMovement]
      split <;> split <;>
        simp [addScaled_y0 _ _ _ hf,
          foldl_stickStep_pos_y fwd rightV rs dt s.inputSources st hf hr]
  · intro camDir invLen
    unfold headForwardXZ
    apply normalizeWith_y0
    split
    · rfl
    · rfl

/-- Witness for C10: all conjuncts at a concrete fully-populated
frame (stick input active, both hands pinching, both controllers
selecting). -/
theorem locomotion_preserves_height_witness :
    ((applyAVPAxes ⟨⟨⟨0, -1⟩, true, Option.none⟩, ⟨⟨0, 0⟩, false, Option.none⟩⟩
        ⟨0, 0, -1⟩ ⟨0, 5, 0⟩ (1/10)).2).y = (⟨0, 5, 0⟩ : Vec3).y ∧
    (applyAVPSelectStep ⟨⟨⟨0, -1⟩, true, Option.none⟩, ⟨⟨0, 0⟩, false, Option.none⟩⟩
        ⟨true, Option.some ⟨Handedness.none, [], Option.none⟩, ⟨0, 0, -1⟩, 1⟩
        ⟨true, Option.some ⟨Handedness.none, [], Option.none⟩, ⟨0, 0, -1⟩, 1⟩
        (1/10) ⟨0, 5, 0⟩).y = (⟨0, 5, 0⟩ : Vec3).y ∧
    (updateXRMovement (Option.some ⟨[⟨Handedness.none, [],
          Option.some ⟨Option.some [0, -1, 0]⟩⟩]⟩)
        (Option.some ⟨Option.some ⟨0, 0, 0⟩, Option.some ⟨0, 0, 0⟩⟩)
        (Option.some ⟨Option.some ⟨0, 0, 0⟩, Option.some ⟨0, 0, 0⟩⟩)
        ⟨0, 0, -1⟩ ⟨1, 0, 0⟩ 0 0 (1/10) ⟨⟨0, 5, 0⟩, 0⟩).pos.y =
      (⟨⟨0, 5, 0⟩, 0⟩ : XRState).pos.y := by
  have h := locomotion_preserves_height
    ⟨⟨⟨0, -1⟩, true, Option.none⟩, ⟨⟨0, 0⟩, false, Option.none⟩⟩
    ⟨true, Option.some ⟨Handedness.none, [], Option.none⟩, ⟨0, 0, -1⟩, 1⟩
    ⟨true, Option.some ⟨Handedness.none, [], Option.none⟩, ⟨0, 0, -1⟩, 1⟩
    (Option.some ⟨[⟨Handedness.none, [], Option.some ⟨Option.some [0, -1, 0]⟩⟩]⟩)
    (Option.some ⟨Option.some ⟨0, 0, 0⟩, Option.some ⟨0, 0, 0⟩⟩)
    (Option.some ⟨Option.some ⟨0, 0, 0⟩, Option.some ⟨0, 0, 0⟩⟩)
    ⟨0, 0, -1⟩ ⟨1, 0, 0⟩ ⟨0, 5, 0⟩ ⟨⟨0, 5, 0⟩, 0⟩ 0 0 (1/10) rfl rfl
  exact ⟨h.1, h.2.1, h.2.2.2.1⟩

end AVP
